import Mathlib

/-!
Shallow embedding of the Narrativa game-state engine (`src/app/lib/store.ts`,
types from `src/app/types.ts`).

Modeling notes:
* JS `number` fields are modeled as `Int` (health, mana, experience, gold,
  stat values, item-effect amounts may in principle be negative in JS).
* Randomness is passed in explicitly: `roll : Nat` for the damage roll
  (`Math.floor(Math.random() * 4)`, a value in {0,1,2,3}) and
  `encounterRoll : Bool` for the 30% encounter check in `moveToLocation`.
* `uuid` ids and timestamps are environment-generated and never inspected by
  any operation; log entries keep only text and type, and a created
  character's id is modeled as the empty string.
* The asynchronous enemy retaliation scheduled by `attackEnemy` via
  `setTimeout` is modeled as the separate step function `retaliationStep`,
  applied later to the then-current state (the callback re-reads the store
  with `get()` and closes over nothing).
* The store's `set`/`get` discipline is mirrored exactly, including the
  places where the source spreads a stale snapshot (`useItem`'s effect loop
  and `endCombat`'s gold update both spread the character object captured at
  function entry).
-/

inductive CharacterClass where
  | Warrior
  | Mage
  | Rogue
  | Cleric
deriving DecidableEq

inductive CharacterRelic where
  | bladeOfEmber
  | staffOfWhispers
  | shadowCloak
  | divineAmulet
deriving DecidableEq

inductive ItemType where
  | weapon
  | armor
  | potion
  | quest
  | misc
deriving DecidableEq

inductive ItemRarity where
  | common
  | uncommon
  | rare
  | epic
  | legendary
deriving DecidableEq

inductive EffectType where
  | heal
  | damage
  | buff
  | debuff
deriving DecidableEq

inductive EffectTarget where
  | self
  | enemy
  | allies
deriving DecidableEq

inductive LogType where
  | narrative
  | dialog
  | combat
  | system
deriving DecidableEq

structure ItemEffect where
  type : EffectType
  target : EffectTarget
  amount : Int
deriving DecidableEq

structure Item where
  id : String
  name : String
  description : String
  type : ItemType
  rarity : ItemRarity
  value : Int
  effects : Option (List ItemEffect)
  usable : Bool
deriving DecidableEq

structure Stats where
  strength : Int
  dexterity : Int
  constitution : Int
  intelligence : Int
  wisdom : Int
  charisma : Int
deriving DecidableEq

structure EnemyStats where
  strength : Int
  dexterity : Int
  constitution : Int
deriving DecidableEq

structure Enemy where
  id : String
  name : String
  description : String
  level : Int
  health : Int
  maxHealth : Int
  stats : EnemyStats
  drops : List Item
  experience : Int
  gold : Int
deriving DecidableEq

structure Character where
  id : String
  name : String
  description : String
  charClass : CharacterClass
  relic : CharacterRelic
  level : Int
  experience : Int
  health : Int
  maxHealth : Int
  mana : Int
  maxMana : Int
  inventory : List Item
  stats : Stats
  gold : Int
deriving DecidableEq

structure Location where
  id : String
  name : String
  description : String
  connections : List String
  enemies : Option (List Enemy)
deriving DecidableEq

structure GameLogEntry where
  text : String
  type : LogType
deriving DecidableEq

structure CombatState where
  inCombat : Bool
  enemies : List Enemy
  playerTurn : Bool
  round : Nat
  combatLog : List String
deriving DecidableEq

structure GameState where
  character : Option Character
  currentLocation : Option Location
  gameLog : List GameLogEntry
  combat : Option CombatState
  visitedLocations : List String
deriving DecidableEq

/-- The `wolf1` enemy resident in the forest location. -/
def wolf1 : Enemy :=
  { id := "wolf1"
    name := "Shadow Wolf"
    description := "A wolf with fur as black as midnight and eyes that glow with an unnatural red light."
    level := 1
    health := 15
    maxHealth := 15
    stats := { strength := 3, dexterity := 4, constitution := 2 }
    drops := []
    experience := 10
    gold := 0 }

/-- The `skeleton1` enemy resident in the crypt location. -/
def skeleton1 : Enemy :=
  { id := "skeleton1"
    name := "Reanimated Skeleton"
    description := "A skeleton animated by dark magic, its bones yellowed with age. It clutches a rusted sword in its bony hands."
    level := 2
    health := 20
    maxHealth := 20
    stats := { strength := 4, dexterity := 2, constitution := 3 }
    drops := []
    experience := 20
    gold := 5 }

def villageLocation : Location :=
  { id := "village"
    name := "Eldermoor Village"
    description := "A small, dreary settlement shrouded in perpetual twilight. Dilapidated wooden buildings line the muddy streets, and villagers hurry about with wary eyes."
    connections := ["forest", "tavern", "blacksmith"]
    enemies := none }

def tavernLocation : Location :=
  { id := "tavern"
    name := "The Howling Wolf Tavern"
    description := "A dimly lit tavern with rough-hewn wooden tables and the smell of stale ale. A few patrons huddle in corners, speaking in hushed tones."
    connections := ["village"]
    enemies := none }

def forestLocation : Location :=
  { id := "forest"
    name := "The Whispering Woods"
    description := "Ancient trees loom overhead, their twisted branches blocking what little light filters through the perpetual mist. Strange sounds echo from deep within."
    connections := ["village", "ruins"]
    enemies := some [wolf1] }

def blacksmithLocation : Location :=
  { id := "blacksmith"
    name := "The Smoldering Forge"
    description := "A soot-covered workshop where the village blacksmith crafts weapons and armor. The heat from the forge provides rare warmth in this cold place."
    connections := ["village"]
    enemies := none }

def ruinsLocation : Location :=
  { id := "ruins"
    name := "Ancient Temple Ruins"
    description := "Crumbling stone structures covered in strange symbols. The air here feels charged with forgotten magic."
    connections := ["forest", "crypt"]
    enemies := some [] }

def cryptLocation : Location :=
  { id := "crypt"
    name := "The Forgotten Crypt"
    description := "A dark, underground chamber filled with ancient sarcophagi. The walls are adorned with faded murals depicting strange rituals."
    connections := ["ruins"]
    enemies := some [skeleton1] }

/-- The `locations` record, indexed by location id (`locations[locationId]`). -/
def locations (locationId : String) : Option Location :=
  if locationId == "village" then some villageLocation
  else if locationId == "tavern" then some tavernLocation
  else if locationId == "forest" then some forestLocation
  else if locationId == "blacksmith" then some blacksmithLocation
  else if locationId == "ruins" then some ruinsLocation
  else if locationId == "crypt" then some cryptLocation
  else none

/-- `getBaseStats`: fixed per-class base stat table.  The source's `default`
branch (all fives) is unreachable because `CharacterClass` is a closed
four-valued union. -/
def getBaseStats (characterClass : CharacterClass) : Stats :=
  match characterClass with
  | CharacterClass.Warrior =>
    { strength := 8, dexterity := 5, constitution := 7
      intelligence := 3, wisdom := 4, charisma := 5 }
  | CharacterClass.Mage =>
    { strength := 3, dexterity := 4, constitution := 4
      intelligence := 8, wisdom := 7, charisma := 6 }
  | CharacterClass.Rogue =>
    { strength := 5, dexterity := 8, constitution := 5
      intelligence := 6, wisdom := 4, charisma := 6 }
  | CharacterClass.Cleric =>
    { strength := 5, dexterity := 4, constitution := 6
      intelligence := 5, wisdom := 8, charisma := 7 }

/-- `calculateDamage`: `Math.floor(baseDamage * 1.5) + Math.floor(Math.random() * 4)`.
`Math.floor(x * 1.5)` on an integer `x` is exactly `⌊3x/2⌋` (`Int.fdiv`),
and the random part is passed in as `roll ∈ {0,1,2,3}`. -/
def calculateDamage (strength dexterity : Int) (isRanged : Bool) (roll : Nat) : Int :=
  let baseDamage := if isRanged then dexterity else strength
  Int.fdiv (baseDamage * 3) 2 + (roll : Int)

/-- `addToGameLog`: appends an entry to the game log. -/
def addToGameLog (s : GameState) (text : String) (type : LogType) : GameState :=
  { s with gameLog := s.gameLog ++ [{ text := text, type := type }] }

/-- `createNewCharacter`: builds the fresh character from the class's base
stats and replaces the store's character. -/
def createNewCharacter (s : GameState) (name description : String)
    (characterClass : CharacterClass) (relic : CharacterRelic) : GameState :=
  let baseStats := getBaseStats characterClass
  let initialHealth := 20 + baseStats.constitution * 5
  let initialMana := baseStats.intelligence * 10
  let newCharacter : Character :=
    { id := ""
      name := name
      description := description
      charClass := characterClass
      relic := relic
      level := 1
      experience := 0
      health := initialHealth
      maxHealth := initialHealth
      mana := initialMana
      maxMana := initialMana
      inventory := []
      stats := baseStats
      gold := 10 }
  { s with character := some newCharacter }

/-- `addItemToInventory`: appends the item; no-op without a character. -/
def addItemToInventory (s : GameState) (item : Item) : GameState :=
  match s.character with
  | none => s
  | some character =>
    { s with character := some { character with inventory := character.inventory ++ [item] } }

/-- `removeItemFromInventory`: filters out every item whose id matches. -/
def removeItemFromInventory (s : GameState) (itemId : String) : GameState :=
  match s.character with
  | none => s
  | some character =>
    let newCharacter := { character with inventory := character.inventory.filter (fun item => item.id != itemId) }
    { s with character := some newCharacter }

/-- The body of `useItem`'s `item.effects.forEach` loop: for a heal-type
self-targeted effect, write `min(character.health + amount,
character.maxHealth)` — computed from the `character` snapshot captured at
`useItem` entry, exactly as the source closure does — and append a log
entry; other effect kinds are no-ops. -/
def useItemEffectStep (character : Character) (item : Item) (acc : GameState)
    (effect : ItemEffect) : GameState :=
  if effect.type == EffectType.heal && effect.target == EffectTarget.self then
    let newHealth := min (character.health + effect.amount) character.maxHealth
    let acc1 := { acc with character := some { character with health := newHealth } }
    addToGameLog acc1
      ("You used " ++ item.name ++ " and restored " ++ toString effect.amount ++ " health.")
      LogType.system
  else acc

/-- `useItem`: finds the first inventory item with the given id; if absent or
not usable, returns unchanged.  Otherwise iterates `useItemEffectStep` over
the item's effects, then removes every item with that id. -/
def useItem (s : GameState) (itemId : String) : GameState :=
  match s.character with
  | none => s
  | some character =>
    match character.inventory.find? (fun i => i.id == itemId) with
    | none => s
    | some item =>
      if item.usable then
        let s1 :=
          match item.effects with
          | none => s
          | some effects => effects.foldl (useItemEffectStep character item) s
        removeItemFromInventory s1 itemId
      else s

/-- `gainExperience`: adds the amount; if the new total reaches
`level * 100`, performs a single level-up with class-specific stat growth,
recomputes the maxima and fully restores health and mana. -/
def gainExperience (s : GameState) (amount : Int) : GameState :=
  match s.character with
  | none => s
  | some character =>
    let newExperience := character.experience + amount
    let experienceToNextLevel := character.level * 100
    if newExperience ≥ experienceToNextLevel then
      let newLevel := character.level + 1
      let remainingExperience := newExperience - experienceToNextLevel
      let stats0 := character.stats
      let newStats :=
        match character.charClass with
        | CharacterClass.Warrior =>
          { stats0 with strength := stats0.strength + 2, constitution := stats0.constitution + 1 }
        | CharacterClass.Mage =>
          { stats0 with intelligence := stats0.intelligence + 2, wisdom := stats0.wisdom + 1 }
        | CharacterClass.Rogue =>
          { stats0 with dexterity := stats0.dexterity + 2, charisma := stats0.charisma + 1 }
        | CharacterClass.Cleric =>
          { stats0 with wisdom := stats0.wisdom + 2, constitution := stats0.constitution + 1 }
      let newMaxHealth := 20 + newStats.constitution * 5
      let newMaxMana := newStats.intelligence * 10
      let newCharacter :=
        { character with
          level := newLevel
          experience := remainingExperience
          maxHealth := newMaxHealth
          health := newMaxHealth
          maxMana := newMaxMana
          mana := newMaxMana
          stats := newStats }
      let s1 := { s with character := some newCharacter }
      addToGameLog s1
        ("You gained " ++ toString amount ++ " experience and leveled up to level " ++ toString newLevel ++ "!")
        LogType.system
    else
      let s1 := { s with character := some { character with experience := newExperience } }
      addToGameLog s1 ("You gained " ++ toString amount ++ " experience.") LogType.system

/-- `startCombat`: installs a fresh combat state (the source's deep copy of
the enemy list is the identity on immutable values) and logs the start. -/
def startCombat (s : GameState) (enemies : List Enemy) : GameState :=
  let combatState : CombatState :=
    { inCombat := true, enemies := enemies, playerTurn := true, round := 1, combatLog := [] }
  let s1 := { s with combat := some combatState }
  addToGameLog s1
    ("Combat started! You are facing " ++ String.intercalate ", " (enemies.map (fun e => e.name)) ++ ".")
    LogType.combat

/-- `moveToLocation`: looks the id up in the catalog (no-op when absent),
records the visit, logs the move, and on a successful 30% encounter roll at a
location with resident enemies starts combat with that full list. -/
def moveToLocation (s : GameState) (locationId : String) (encounterRoll : Bool) : GameState :=
  match locations locationId with
  | none => s
  | some location =>
    let visited := s.visitedLocations
    let newVisitedLocations := if visited.contains locationId then visited else visited ++ [locationId]
    let hasEnemies :=
      match location.enemies with
      | some es => decide (0 < es.length)
      | none => false
    let randomEncounter := hasEnemies && encounterRoll
    let s1 := { s with currentLocation := some location, visitedLocations := newVisitedLocations }
    let s2 := addToGameLog s1 ("You have moved to " ++ location.name ++ ".") LogType.narrative
    if randomEncounter then
      match location.enemies with
      | some es => startCombat s2 es
      | none => s2
    else s2

/-- `endCombat`: sums experience/gold over the roster while transferring each
enemy's drops, routes experience to `gainExperience`, then writes the gold
update by spreading the *character snapshot captured at entry* (so the
experience and drop changes made moments before are overwritten — the source's
stale-closure write), logs a summary and clears combat. -/
def endCombat (s : GameState) : GameState :=
  match s.character, s.combat with
  | some character, some combat =>
    let acc := combat.enemies.foldl
      (fun (acc : Int × Int × GameState) enemy =>
        (acc.1 + enemy.experience, acc.2.1 + enemy.gold,
          enemy.drops.foldl (fun st item => addItemToInventory st item) acc.2.2))
      (0, 0, s)
    let totalExperience := acc.1
    let totalGold := acc.2.1
    let s1 := acc.2.2
    let s2 := gainExperience s1 totalExperience
    let s3 := { s2 with character := some { character with gold := character.gold + totalGold } }
    let s4 := addToGameLog s3
      ("Combat ended. You gained " ++ toString totalExperience ++ " experience and " ++ toString totalGold ++ " gold.")
      LogType.combat
    { s4 with combat := none }
  | _, _ => s

/-- The state `attackEnemy` installs with its first `set` (damage applied,
`playerTurn := false`, round held on a lethal blow), before any defeat
handling.  Mirrors the prefix of `attackEnemy`. -/
def attackEnemyFirstSet (s : GameState) (enemyId : String) (roll : Nat) : GameState :=
  match s.character, s.combat with
  | some character, some combat =>
    match combat.enemies.findIdx? (fun e => e.id == enemyId) with
    | none => s
    | some enemyIndex =>
      match combat.enemies.get? enemyIndex with
      | none => s
      | some enemy =>
        let damage := calculateDamage character.stats.strength character.stats.dexterity false roll
        let newEnemyHealth := max 0 (enemy.health - damage)
        let newEnemies := combat.enemies.set enemyIndex { enemy with health := newEnemyHealth }
        let newCombat :=
          { combat with
            enemies := newEnemies
            playerTurn := false
            round := if newEnemyHealth ≤ 0 then combat.round else combat.round + 1 }
        { s with combat := some newCombat }
  | _, _ => s

/-- `attackEnemy`: requires a character and a combat, no-op on an unknown
enemy id.  Applies the damage roll, logs the hit; on a kill removes all
zero-health enemies and either resolves rewards via `endCombat` (empty
roster) or restores `playerTurn := true` by spreading the combat snapshot
captured at entry.  On a non-kill the deferred retaliation
(`retaliationStep`) is left to run later. -/
def attackEnemy (s : GameState) (enemyId : String) (roll : Nat) : GameState :=
  match s.character, s.combat with
  | some character, some combat =>
    match combat.enemies.findIdx? (fun e => e.id == enemyId) with
    | none => s
    | some enemyIndex =>
      match combat.enemies.get? enemyIndex with
      | none => s
      | some enemy =>
        let damage := calculateDamage character.stats.strength character.stats.dexterity false roll
        let newEnemyHealth := max 0 (enemy.health - damage)
        let newEnemies := combat.enemies.set enemyIndex { enemy with health := newEnemyHealth }
        let newCombat :=
          { combat with
            enemies := newEnemies
            playerTurn := false
            round := if newEnemyHealth ≤ 0 then combat.round else combat.round + 1 }
        let s1 := { s with combat := some newCombat }
        let s2 := addToGameLog s1
          ("You hit " ++ enemy.name ++ " for " ++ toString damage ++ " damage.") LogType.combat
        if newEnemyHealth ≤ 0 then
          let s3 := addToGameLog s2 ("You defeated " ++ enemy.name ++ "!") LogType.combat
          let remainingEnemies := newEnemies.filter (fun e => decide (0 < e.health))
          if remainingEnemies.isEmpty then
            endCombat s3
          else
            let continueCombat := { combat with enemies := remainingEnemies, playerTurn := true }
            { s3 with combat := some continueCombat }
        else s2
  | _, _ => s

/-- The deferred enemy-retaliation callback scheduled by `attackEnemy`
(`setTimeout` body): re-reads the current state, returns unchanged when
combat or character is gone, otherwise sums every enemy's
`max(1, floor(strength * 1.2))` damage (the double-precision product is
idealized as exact, `⌊6·strength/5⌋`; no property below depends on its
value), floors the character's health at 0 and returns the turn. -/
def retaliationStep (s : GameState) : GameState :=
  match s.character, s.combat with
  | some character, some combat =>
    let totalDamage := combat.enemies.foldl
      (fun acc enemy => acc + max 1 (Int.fdiv (enemy.stats.strength * 6) 5)) (0 : Int)
    let newHealth := max 0 (character.health - totalDamage)
    let s1 := { s with
      character := some { character with health := newHealth }
      combat := some { combat with playerTurn := true } }
    let s2 := addToGameLog s1
      ("Enemies attack! You take " ++ toString totalDamage ++ " damage.") LogType.combat
    if newHealth ≤ 0 then
      addToGameLog s2 "You have been defeated! Game over." LogType.system
    else s2
  | _, _ => s

/-- The store's initial state. -/
def initialState : GameState :=
  { character := none
    currentLocation := none
    gameLog := []
    combat := none
    visitedLocations := [] }

/-! ## Derived definitions used by the verification -/

/-- The health value produced by `useItem`'s effect loop: each heal-type
self-targeted effect overwrites the accumulator with
`min(character.health + amount, character.maxHealth)` computed from the entry
snapshot `character`, so the last such effect wins. -/
def healFold (character : Character) (effects : List ItemEffect) (h : Int) : Int :=
  effects.foldl (fun acc effect =>
    if effect.type == EffectType.heal && effect.target == EffectTarget.self then
      min (character.health + effect.amount) character.maxHealth
    else acc) h

/-- The character health after `useItem` successfully applies an item. -/
def healOutcome (character : Character) (item : Item) : Int :=
  match item.effects with
  | none => character.health
  | some effects => healFold character effects character.health

/-- Number of heal-type self-targeted effects of an item: one log entry is
emitted per such effect. -/
def healCount (item : Item) : Nat :=
  match item.effects with
  | none => 0
  | some effects =>
    (effects.filter (fun e => e.type == EffectType.heal && e.target == EffectTarget.self)).length

/-- An item is benign when every heal-type self-targeted effect has a
non-negative amount. -/
def itemOKb (item : Item) : Bool :=
  match item.effects with
  | none => true
  | some effects =>
    effects.all (fun e =>
      !(e.type == EffectType.heal && e.target == EffectTarget.self) || decide (0 ≤ e.amount))

/-- Character-level invariant tracked along reachable states: resource
bounds, benign inventory, and the non-negativity of the two stats the
resource maxima are recomputed from. -/
def chOK (ch : Character) : Prop :=
  0 ≤ ch.health ∧ ch.health ≤ ch.maxHealth ∧ 0 ≤ ch.mana ∧ ch.mana ≤ ch.maxMana ∧
  (∀ it ∈ ch.inventory, itemOKb it = true) ∧
  0 ≤ ch.stats.constitution ∧ 0 ≤ ch.stats.intelligence

/-- State-level form of `chOK` (vacuous without a character). -/
def stateOK (s : GameState) : Prop :=
  ∀ ch, s.character = some ch → chOK ch

/-- States reachable from `initialState` through the public engine
operations.  `itemCond` constrains the items handed to `addItemToInventory`
and `rosterCond` the enemy lists handed to `startCombat`; instantiating both
with trivial conditions gives unrestricted reachability. -/
inductive Reach (itemCond : Item → Prop) (rosterCond : List Enemy → Prop) : GameState → Prop where
  | init : Reach itemCond rosterCond initialState
  | createChar (s : GameState) (name description : String) (cls : CharacterClass)
      (relic : CharacterRelic) (h : Reach itemCond rosterCond s) :
      Reach itemCond rosterCond (createNewCharacter s name description cls relic)
  | gainExp (s : GameState) (amount : Int) (h : Reach itemCond rosterCond s) :
      Reach itemCond rosterCond (gainExperience s amount)
  | addItem (s : GameState) (item : Item) (h : Reach itemCond rosterCond s)
      (hitem : itemCond item) :
      Reach itemCond rosterCond (addItemToInventory s item)
  | removeItem (s : GameState) (itemId : String) (h : Reach itemCond rosterCond s) :
      Reach itemCond rosterCond (removeItemFromInventory s itemId)
  | useIt (s : GameState) (itemId : String) (h : Reach itemCond rosterCond s) :
      Reach itemCond rosterCond (useItem s itemId)
  | move (s : GameState) (locationId : String) (encounterRoll : Bool)
      (h : Reach itemCond rosterCond s) :
      Reach itemCond rosterCond (moveToLocation s locationId encounterRoll)
  | startC (s : GameState) (enemies : List Enemy) (h : Reach itemCond rosterCond s)
      (henemies : rosterCond enemies) :
      Reach itemCond rosterCond (startCombat s enemies)
  | attack (s : GameState) (enemyId : String) (roll : Nat) (h : Reach itemCond rosterCond s)
      (hroll : roll < 4) :
      Reach itemCond rosterCond (attackEnemy s enemyId roll)
  | endC (s : GameState) (h : Reach itemCond rosterCond s) :
      Reach itemCond rosterCond (endCombat s)
  | retaliate (s : GameState) (h : Reach itemCond rosterCond s) :
      Reach itemCond rosterCond (retaliationStep s)

/-! ## Concrete fixtures for witnesses and counterexamples -/

/-- A freshly created Warrior session. -/
def freshWarriorState : GameState :=
  createNewCharacter initialState "Aldric" "a wandering knight"
    CharacterClass.Warrior CharacterRelic.bladeOfEmber

/-- The freshly created Warrior character itself. -/
def freshWarrior : Character :=
  { id := ""
    name := "Aldric"
    description := "a wandering knight"
    charClass := CharacterClass.Warrior
    relic := CharacterRelic.bladeOfEmber
    level := 1
    experience := 0
    health := 55
    maxHealth := 55
    mana := 30
    maxMana := 30
    inventory := []
    stats := getBaseStats CharacterClass.Warrior
    gold := 10 }

/-- A small healing potion dropped by the test wolf. -/
def minorPotion : Item :=
  { id := "minor-potion"
    name := "Minor Healing Potion"
    description := "A vial of red liquid."
    type := ItemType.potion
    rarity := ItemRarity.common
    value := 5
    effects := some [{ type := EffectType.heal, target := EffectTarget.self, amount := 5 }]
    usable := true }

/-- A one-health wolf carrying a drop, for exercising the lethal-blow path. -/
def dyingWolf : Enemy :=
  { wolf1 with health := 1, drops := [minorPotion], experience := 10, gold := 5 }

/-- Active combat against the single one-health wolf. -/
def lastEnemyCombat : CombatState :=
  { inCombat := true, enemies := [dyingWolf], playerTurn := true, round := 1, combatLog := [] }

def lastEnemyState : GameState :=
  { freshWarriorState with combat := some lastEnemyCombat }

/-- A potion with two heal-self effects of 5 each. -/
def doubleHealPotion : Item :=
  { id := "double-potion"
    name := "Double Potion"
    description := "Two draughts in one bottle."
    type := ItemType.potion
    rarity := ItemRarity.common
    value := 10
    effects := some
      [{ type := EffectType.heal, target := EffectTarget.self, amount := 5 },
       { type := EffectType.heal, target := EffectTarget.self, amount := 5 }]
    usable := true }

/-- A wounded character holding the double potion. -/
def woundedHero : Character :=
  { freshWarrior with health := 10, maxHealth := 30, inventory := [doubleHealPotion] }

def woundedHeroState : GameState :=
  { initialState with character := some woundedHero }

/-- A second, distinct item sharing `doubleHealPotion`'s id. -/
def duplicatePotion : Item :=
  { doubleHealPotion with name := "Duplicate Potion", value := 3, usable := false }

/-- A character holding two items with the same id, the first usable. -/
def duplicateHero : Character :=
  { freshWarrior with health := 10, maxHealth := 30, inventory := [doubleHealPotion, duplicatePotion] }

def duplicateHeroState : GameState :=
  { initialState with character := some duplicateHero }

/-- A character whose only item is not usable. -/
def lockedHero : Character :=
  { freshWarrior with inventory := [duplicatePotion] }

def lockedHeroState : GameState :=
  { initialState with character := some lockedHero }

/-- A usable item whose single heal-self effect has a negative amount. -/
def cursedVial : Item :=
  { id := "cursed-vial"
    name := "Cursed Vial"
    description := "It smells wrong."
    type := ItemType.potion
    rarity := ItemRarity.common
    value := 0
    effects := some [{ type := EffectType.heal, target := EffectTarget.self, amount := -1000 }]
    usable := true }

/-- Create a Warrior, hand him the cursed vial, drink it. -/
def cursedState : GameState :=
  useItem (addItemToInventory freshWarriorState cursedVial) "cursed-vial"

/-- Two-wolf roster: one at one health, one untouched. -/
def dyingWolfNoDrops : Enemy :=
  { wolf1 with id := "wolfA", health := 1 }

def healthyWolf : Enemy :=
  { wolf1 with id := "wolfB" }

/-- Active combat against the pair, at round 3. -/
def pairCombat : CombatState :=
  { inCombat := true, enemies := [dyingWolfNoDrops, healthyWolf], playerTurn := true,
    round := 3, combatLog := [] }

def pairCombatState : GameState :=
  { freshWarriorState with combat := some pairCombat }

/-- `startCombat` invoked with the empty enemy list. -/
def emptyRosterState : GameState :=
  startCombat initialState []

/-- The class-specific level-up stat growth applied by `gainExperience`
(Warrior +2 strength/+1 constitution, Mage +2 intelligence/+1 wisdom,
Rogue +2 dexterity/+1 charisma, Cleric +2 wisdom/+1 constitution). -/
def grownStats (ch : Character) : Stats :=
  match ch.charClass with
  | CharacterClass.Warrior =>
    { ch.stats with strength := ch.stats.strength + 2, constitution := ch.stats.constitution + 1 }
  | CharacterClass.Mage =>
    { ch.stats with intelligence := ch.stats.intelligence + 2, wisdom := ch.stats.wisdom + 1 }
  | CharacterClass.Rogue =>
    { ch.stats with dexterity := ch.stats.dexterity + 2, charisma := ch.stats.charisma + 1 }
  | CharacterClass.Cleric =>
    { ch.stats with wisdom := ch.stats.wisdom + 2, constitution := ch.stats.constitution + 1 }

/-! ## Theorems -/

/-- C9: for every valid class, `createNewCharacter` yields a character with
`health = maxHealth = 20 + 5·constitution` and `mana = maxMana =
10·intelligence` computed from the class's base stat table, gold 10,
level 1, experience 0 and an empty inventory; the operation always succeeds
(the resulting character is present). -/
theorem createCharacter_resource_formulas (s : GameState) (name description : String)
    (cls : CharacterClass) (relic : CharacterRelic) :
    ((createNewCharacter s name description cls relic).character.map (fun c =>
        (c.health, c.maxHealth, c.mana, c.maxMana, c.gold, c.level, c.experience, c.inventory, c.stats))) =
      some (20 + (getBaseStats cls).constitution * 5, 20 + (getBaseStats cls).constitution * 5,
        (getBaseStats cls).intelligence * 10, (getBaseStats cls).intelligence * 10,
        10, 1, 0, ([] : List Item), getBaseStats cls) := rfl

/-- C6: the deferred enemy-retaliation callback re-reads the current state;
if the combat object has been cleared (or the character is gone) it mutates
nothing — character, combat and game log are left exactly as they were. -/
theorem retaliation_noop_when_combat_cleared (s : GameState)
    (h : s.combat = none ∨ s.character = none) :
    retaliationStep s = s := by
  rcases h with h | h
  · cases hc : s.character with
    | none => simp [retaliationStep, hc]
    | some ch => simp [retaliationStep, hc, h]
  · simp [retaliationStep, h]

/-- Witness for C6 at a concrete state. -/
theorem retaliation_noop_when_combat_cleared_witness :
    retaliationStep freshWarriorState = freshWarriorState :=
  retaliation_noop_when_combat_cleared freshWarriorState (Or.inl rfl)

/-- C7: every operation invoked with an invalid target is a silent no-op
leaving the entire game state unchanged: `useItem` without a character, with
an absent item id, or with a non-usable item; `moveToLocation` with an id
not in the catalog; `attackEnemy` without an active combat or character or
with an enemy id not in the roster; `endCombat` without combat or character;
`gainExperience` without a character. -/
theorem invalid_targets_silent_noops :
    (∀ (s : GameState) (itemId : String), s.character = none → useItem s itemId = s) ∧
    (∀ (s : GameState) (ch : Character) (itemId : String), s.character = some ch →
      ch.inventory.find? (fun i => i.id == itemId) = none → useItem s itemId = s) ∧
    (∀ (s : GameState) (ch : Character) (itemId : String) (item : Item), s.character = some ch →
      ch.inventory.find? (fun i => i.id == itemId) = some item → item.usable = false →
      useItem s itemId = s) ∧
    (∀ (s : GameState) (locationId : String) (encounterRoll : Bool),
      locations locationId = none → moveToLocation s locationId encounterRoll = s) ∧
    (∀ (s : GameState) (enemyId : String) (roll : Nat),
      s.combat = none → attackEnemy s enemyId roll = s) ∧
    (∀ (s : GameState) (enemyId : String) (roll : Nat),
      s.character = none → attackEnemy s enemyId roll = s) ∧
    (∀ (s : GameState) (cb : CombatState) (enemyId : String) (roll : Nat),
      s.combat = some cb → cb.enemies.findIdx? (fun e => e.id == enemyId) = none →
      attackEnemy s enemyId roll = s) ∧
    (∀ (s : GameState), s.combat = none → endCombat s = s) ∧
    (∀ (s : GameState), s.character = none → endCombat s = s) ∧
    (∀ (s : GameState) (amount : Int), s.character = none → gainExperience s amount = s) := by
  refine ⟨?_, ?_, ?_, ?_, ?_, ?_, ?_, ?_, ?_, ?_⟩
  · intro s itemId h
    simp [useItem, h]
  · intro s ch itemId hch hfind
    simp [useItem, hch, hfind]
  · intro s ch itemId item hch hfind husable
    simp [useItem, hch, hfind, husable]
  · intro s locationId encounterRoll h
    simp [moveToLocation, h]
  · intro s enemyId roll h
    cases hc : s.character with
    | none => simp [attackEnemy, hc]
    | some ch => simp [attackEnemy, hc, h]
  · intro s enemyId roll h
    simp [attackEnemy, h]
  · intro s cb enemyId roll hcb hidx
    cases hc : s.character with
    | none => simp [attackEnemy, hc]
    | some ch => simp [attackEnemy, hc, hcb, hidx]
  · intro s h
    cases hc : s.character with
    | none => simp [endCombat, hc]
    | some ch => simp [endCombat, hc, h]
  · intro s h
    simp [endCombat, h]
  · intro s amount h
    simp [gainExperience, h]

/-- Witness for C7 at concrete invalid targets. -/
theorem invalid_targets_silent_noops_witness :
    useItem initialState "ghost-item" = initialState ∧
    useItem freshWarriorState "ghost-item" = freshWarriorState ∧
    useItem lockedHeroState "double-potion" = lockedHeroState ∧
    moveToLocation freshWarriorState "atlantis" true = freshWarriorState ∧
    attackEnemy freshWarriorState "wolf1" 0 = freshWarriorState ∧
    attackEnemy emptyRosterState "wolf1" 0 = emptyRosterState ∧
    attackEnemy lastEnemyState "not-a-wolf" 2 = lastEnemyState ∧
    endCombat freshWarriorState = freshWarriorState ∧
    endCombat emptyRosterState = emptyRosterState ∧
    gainExperience initialState 150 = initialState :=
  ⟨invalid_targets_silent_noops.1 initialState "ghost-item" rfl,
   invalid_targets_silent_noops.2.1 freshWarriorState freshWarrior "ghost-item" rfl rfl,
   invalid_targets_silent_noops.2.2.1 lockedHeroState lockedHero "double-potion"
     duplicatePotion rfl (by decide) (by decide),
   invalid_targets_silent_noops.2.2.2.1 freshWarriorState "atlantis" true rfl,
   invalid_targets_silent_noops.2.2.2.2.1 freshWarriorState "wolf1" 0 rfl,
   invalid_targets_silent_noops.2.2.2.2.2.1 emptyRosterState "wolf1" 0 rfl,
   invalid_targets_silent_noops.2.2.2.2.2.2.1 lastEnemyState lastEnemyCombat "not-a-wolf" 2
     rfl (by decide),
   invalid_targets_silent_noops.2.2.2.2.2.2.2.1 freshWarriorState rfl,
   invalid_targets_silent_noops.2.2.2.2.2.2.2.2.1 emptyRosterState rfl,
   invalid_targets_silent_noops.2.2.2.2.2.2.2.2.2 initialState 150 rfl⟩

/-- C4: for a character of any class at level 1 with experience 0,
`gainExperience 150` yields level 2, experience 50 (threshold
`1 × 100` from the level before the gain), stats grown by the
class-specific growth table, `maxHealth = 20 + 5·constitution` and
`maxMana = 10·intelligence` recomputed from the new stats, and health and
mana fully restored to the new maxima; and only a single level-up is
evaluated per call (`gainExperience 300` from the same state stops at
level 2 with 200 experience carried, although 300 crosses two thresholds). -/
theorem gainExperience_150_single_level (s : GameState) (ch : Character)
    (hch : s.character = some ch) (hlevel : ch.level = 1) (hexp : ch.experience = 0) :
    ((gainExperience s 150).character.map (fun c =>
        (c.level, c.experience, c.stats, c.maxHealth, c.health, c.maxMana, c.mana))) =
      some (2, 50, grownStats ch,
        20 + (grownStats ch).constitution * 5, 20 + (grownStats ch).constitution * 5,
        (grownStats ch).intelligence * 10, (grownStats ch).intelligence * 10) ∧
    ((gainExperience s 300).character.map (fun c => (c.level, c.experience))) = some (2, 200) := by
  cases hcl : ch.charClass <;>
    simp [gainExperience, addToGameLog, hch, hlevel, hexp, grownStats, hcl]

/-- Witness for C4: a fresh Warrior. -/
theorem gainExperience_150_single_level_witness :
    freshWarriorState.character = some freshWarrior ∧
    freshWarrior.level = 1 ∧ freshWarrior.experience = 0 ∧
    (((gainExperience freshWarriorState 150).character.map (fun c =>
        (c.level, c.experience, c.stats, c.maxHealth, c.health, c.maxMana, c.mana))) =
      some (2, 50, grownStats freshWarrior, 60, 60, 30, 30) ∧
    ((gainExperience freshWarriorState 300).character.map (fun c => (c.level, c.experience))) =
      some (2, 200)) :=
  ⟨rfl, rfl, rfl, gainExperience_150_single_level freshWarriorState freshWarrior rfl rfl rfl⟩

/-- C1 (code-bug evidence): attacking the last one-health enemy does remove
it and clear combat to Idle, but the rewards are not granted as the spec
states: `endCombat`'s gold write spreads the character snapshot taken at
entry, overwriting the experience gain and the transferred drops.  From a
fresh Warrior (experience 0, gold 10, empty inventory) fighting a single
one-health wolf worth 10 experience, 5 gold and one drop item, the final
character has experience 0 (not 10), the drop lost (inventory empty) and
only the gold granted. -/
theorem attackEnemy_lastKill_reverts_rewards :
    (attackEnemy lastEnemyState "wolf1" 0).combat = none ∧
    ((attackEnemy lastEnemyState "wolf1" 0).character.map
      (fun c => (c.experience, c.gold, c.inventory))) = some (0, 15, []) :=
  ⟨rfl, rfl⟩

/-- C5: for an `attackEnemy` call with an active combat, a character, and a
target id present in the roster: the first combat update sets
`playerTurn := false` regardless of outcome, with the round held constant
exactly when the blow is lethal and incremented by 1 otherwise; if the blow
is lethal while other enemies survive, the final state has
`playerTurn = true` and the round still held — killing blows do not cede
initiative; if the target survives, the final state has `playerTurn = false`
and the round incremented. -/
theorem attackEnemy_turn_round_semantics (s : GameState) (ch : Character) (cb : CombatState)
    (enemyId : String) (idx : Nat) (enemy : Enemy) (roll : Nat)
    (hch : s.character = some ch) (hcb : s.combat = some cb)
    (hidx : cb.enemies.findIdx? (fun e => e.id == enemyId) = some idx)
    (hget : cb.enemies.get? idx = some enemy) :
    (((attackEnemyFirstSet s enemyId roll).combat.map (fun c => (c.playerTurn, c.round))) =
      some (false,
        if max 0 (enemy.health - calculateDamage ch.stats.strength ch.stats.dexterity false roll) ≤ 0
        then cb.round else cb.round + 1)) ∧
    (max 0 (enemy.health - calculateDamage ch.stats.strength ch.stats.dexterity false roll) ≤ 0 →
      (cb.enemies.set idx { enemy with
          health := max 0 (enemy.health - calculateDamage ch.stats.strength ch.stats.dexterity false roll) }).filter
        (fun e => decide (0 < e.health)) ≠ [] →
      ((attackEnemy s enemyId roll).combat.map (fun c => (c.playerTurn, c.round))) =
        some (true, cb.round)) ∧
    (¬ max 0 (enemy.health - calculateDamage ch.stats.strength ch.stats.dexterity false roll) ≤ 0 →
      ((attackEnemy s enemyId roll).combat.map (fun c => (c.playerTurn, c.round))) =
        some (false, cb.round + 1)) := by
  have hget2 : cb.enemies[idx]? = some enemy := by
    rw [← List.get?_eq_getElem?]
    exact hget
  refine ⟨?_, ?_, ?_⟩
  · by_cases hl : enemy.health ≤ calculateDamage ch.stats.strength ch.stats.dexterity false roll <;>
      simp [attackEnemyFirstSet, hch, hcb, hidx, hget2, hl, max_le_iff, sub_nonpos]
  · intro hl hrem
    rw [max_le_iff, sub_nonpos] at hl
    obtain ⟨e0, es, hrem⟩ := List.exists_cons_of_ne_nil hrem
    have h0 : max 0 (enemy.health - calculateDamage ch.stats.strength ch.stats.dexterity false roll) = 0 :=
      max_eq_left (sub_nonpos.mpr hl.2)
    rw [h0] at hrem
    simp [attackEnemy, addToGameLog, hch, hcb, hidx, hget2, hl.2, hrem, max_le_iff, sub_nonpos]
  · intro hl
    have hl2 : ¬ enemy.health ≤ calculateDamage ch.stats.strength ch.stats.dexterity false roll := by
      intro hcon
      exact hl (by rw [max_le_iff, sub_nonpos]; exact ⟨le_refl 0, hcon⟩)
    simp [attackEnemy, addToGameLog, hch, hcb, hidx, hget2, hl2, max_le_iff, sub_nonpos]

/-- Witness for C5: a Warrior against a pair of wolves at round 3 — a
killing blow on the one-health wolf keeps the turn and the round, an attack
on the healthy wolf cedes the turn and advances the round. -/
theorem attackEnemy_turn_round_semantics_witness :
    ((attackEnemyFirstSet pairCombatState "wolfA" 0).combat.map
      (fun c => (c.playerTurn, c.round))) = some (false, 3) ∧
    ((attackEnemy pairCombatState "wolfA" 0).combat.map
      (fun c => (c.playerTurn, c.round))) = some (true, 3) ∧
    ((attackEnemy pairCombatState "wolfB" 0).combat.map
      (fun c => (c.playerTurn, c.round))) = some (false, 4) :=
  ⟨(attackEnemy_turn_round_semantics pairCombatState freshWarrior pairCombat "wolfA" 0
      dyingWolfNoDrops 0 rfl rfl (by decide) (by decide)).1,
   (attackEnemy_turn_round_semantics pairCombatState freshWarrior pairCombat "wolfA" 0
      dyingWolfNoDrops 0 rfl rfl (by decide) (by decide)).2.1 (by decide) (by decide),
   (attackEnemy_turn_round_semantics pairCombatState freshWarrior pairCombat "wolfB" 1
      healthyWolf 0 rfl rfl (by decide) (by decide)).2.2 (by decide)⟩

/-- Folding `useItemEffectStep` over an effect list: the character ends at
`healFold` of the entry snapshot, one log entry is appended per heal-type
self-targeted effect, and the other state components are untouched. -/
theorem useItemEffectStep_fold (character : Character) (item : Item) (effects : List ItemEffect) :
    ∀ (acc : GameState) (h0 : Int), acc.character = some { character with health := h0 } →
      ((effects.foldl (useItemEffectStep character item) acc).character =
        some { character with health := healFold character effects h0 }) ∧
      ((effects.foldl (useItemEffectStep character item) acc).gameLog.length =
        acc.gameLog.length +
          (effects.filter (fun e => e.type == EffectType.heal && e.target == EffectTarget.self)).length) ∧
      ((effects.foldl (useItemEffectStep character item) acc).combat = acc.combat) ∧
      ((effects.foldl (useItemEffectStep character item) acc).currentLocation = acc.currentLocation) ∧
      ((effects.foldl (useItemEffectStep character item) acc).visitedLocations = acc.visitedLocations) := by
  induction effects with
  | nil =>
    intro acc h0 hacc
    simpa [healFold] using hacc
  | cons e es ih =>
    intro acc h0 hacc
    by_cases hcond : e.type = EffectType.heal ∧ e.target = EffectTarget.self
    · have hstep : (useItemEffectStep character item acc e).character =
          some { character with health := min (character.health + e.amount) character.maxHealth } := by
        simp [useItemEffectStep, addToGameLog, hcond]
      have hlog : (useItemEffectStep character item acc e).gameLog.length =
          acc.gameLog.length + 1 := by
        simp [useItemEffectStep, addToGameLog, hcond]
      have hrest : (useItemEffectStep character item acc e).combat = acc.combat ∧
          (useItemEffectStep character item acc e).currentLocation = acc.currentLocation ∧
          (useItemEffectStep character item acc e).visitedLocations = acc.visitedLocations := by
        refine ⟨?_, ?_, ?_⟩ <;> simp [useItemEffectStep, addToGameLog, hcond]
      obtain ⟨h1, h2, h3, h4, h5⟩ := ih (useItemEffectStep character item acc e) _ hstep
      refine ⟨?_, ?_, ?_, ?_, ?_⟩
      · rw [List.foldl_cons, h1]
        simp [healFold, hcond]
      · rw [List.foldl_cons, h2, hlog]
        simp [hcond]
        omega
      · rw [List.foldl_cons, h3, hrest.1]
      · rw [List.foldl_cons, h4, hrest.2.1]
      · rw [List.foldl_cons, h5, hrest.2.2]
    · have hstep : useItemEffectStep character item acc e = acc := by
        simp [useItemEffectStep, hcond]
      obtain ⟨h1, h2, h3, h4, h5⟩ := ih acc h0 hacc
      refine ⟨?_, ?_, ?_, ?_, ?_⟩
      · rw [List.foldl_cons, hstep, h1]
        simp [healFold, hcond]
      · rw [List.foldl_cons, hstep, h2]
        simp [hcond]
      · rw [List.foldl_cons, hstep, h3]
      · rw [List.foldl_cons, hstep, h4]
      · rw [List.foldl_cons, hstep, h5]

/-- `useItem` on a present, usable item: the character's health becomes
`healOutcome` of the entry snapshot and the first matching item, every
inventory item with the given id is removed, one log entry is emitted per
heal-type self-targeted effect, and combat is untouched. -/
theorem useItem_success_spec (s : GameState) (character : Character) (itemId : String) (item : Item)
    (hch : s.character = some character)
    (hfind : character.inventory.find? (fun i => i.id == itemId) = some item)
    (husable : item.usable = true) :
    (useItem s itemId).character = some { character with
        health := healOutcome character item
        inventory := character.inventory.filter (fun i => i.id != itemId) } ∧
    (useItem s itemId).gameLog.length = s.gameLog.length + healCount item ∧
    (useItem s itemId).combat = s.combat := by
  have hs : s.character = some { character with health := character.health } := hch
  cases heff : item.effects with
  | none =>
    refine ⟨?_, ?_, ?_⟩ <;>
      simp [useItem, removeItemFromInventory, healOutcome, healCount, hch, hfind, husable, heff]
  | some effects =>
    obtain ⟨h1, h2, h3, h4, h5⟩ := useItemEffectStep_fold character item effects s character.health hs
    refine ⟨?_, ?_, ?_⟩ <;>
      simp [useItem, removeItemFromInventory, healOutcome, healCount, hch, hfind, husable, heff,
        h1, h2, h3]

/-- C10 counterpart-free: `useItem` with a duplicated id applies the effects
of the first matching item only (the health outcome is `healOutcome` of that
first match), yet removes every inventory item carrying that id, not just
the one whose effects were applied. -/
theorem useItem_duplicate_ids (s : GameState) (character : Character) (itemId : String) (item : Item)
    (hch : s.character = some character)
    (hfind : character.inventory.find? (fun i => i.id == itemId) = some item)
    (husable : item.usable = true)
    (_hdup : 2 ≤ (character.inventory.filter (fun i => i.id == itemId)).length) :
    ((useItem s itemId).character.map (fun c => (c.health, c.inventory))) =
      some (healOutcome character item,
        character.inventory.filter (fun i => i.id != itemId)) := by
  rw [(useItem_success_spec s character itemId item hch hfind husable).1]
  rfl

/-- Witness for C10: a hero holding two items with id `double-potion`, the
first usable (two 5-point heals from health 10, cap 30 — outcome 15), the
second not; both are removed. -/
theorem useItem_duplicate_ids_witness :
    ((useItem duplicateHeroState "double-potion").character.map
      (fun c => (c.health, c.inventory))) = some ((15 : Int), ([] : List Item)) :=
  useItem_duplicate_ids duplicateHeroState duplicateHero "double-potion" doubleHealPotion
    rfl (by decide) (by decide) (by decide)

/-- C2 (counterexample): a character at health 10 with maxHealth 30 uses an
item with two heal-self effects of 5 each.  If the increases accumulated
(each clamped) the result would be 20; the code computes each effect from
the health snapshot captured at entry, so the result is 15. -/
theorem useItem_multiHeal_does_not_accumulate :
    ((useItem woundedHeroState "double-potion").character.map (fun c => c.health)) =
      some 15 ∧ (15 : Int) ≠ 20 :=
  ⟨rfl, by decide⟩

/-- C2 (amended): `useItem` on a present usable item applies each heal-self
effect by computing `min(entry health + amount, maxHealth)` from the health
read at entry — so with several heal effects only the last one's value
persists rather than the increases accumulating — emits one log entry per
heal-self effect, and removes every item with that id from the inventory
even when no effect changed any state. -/
theorem useItem_heal_semantics (s : GameState) (character : Character)
    (itemId : String) (item : Item)
    (hch : s.character = some character)
    (hfind : character.inventory.find? (fun i => i.id == itemId) = some item)
    (husable : item.usable = true) :
    (useItem s itemId).character = some { character with
        health := healOutcome character item
        inventory := character.inventory.filter (fun i => i.id != itemId) } ∧
    (useItem s itemId).gameLog.length = s.gameLog.length + healCount item :=
  ⟨(useItem_success_spec s character itemId item hch hfind husable).1,
   (useItem_success_spec s character itemId item hch hfind husable).2.1⟩

/-- Witness for the amended C2 at the wounded hero: outcome health 15, two
log entries, the potion gone. -/
theorem useItem_heal_semantics_witness :
    (useItem woundedHeroState "double-potion").character =
      some { woundedHero with health := 15, inventory := [] } ∧
    (useItem woundedHeroState "double-potion").gameLog.length = 2 :=
  useItem_heal_semantics woundedHeroState woundedHero "double-potion" doubleHealPotion
    rfl (by decide) (by decide)

/-! ## Combat-shape preservation lemmas -/

theorem createNewCharacter_combat (s : GameState) (n d : String) (c : CharacterClass)
    (r : CharacterRelic) : (createNewCharacter s n d c r).combat = s.combat := rfl

theorem addItemToInventory_combat (s : GameState) (item : Item) :
    (addItemToInventory s item).combat = s.combat := by
  cases hc : s.character <;> simp [addItemToInventory, hc]

theorem removeItemFromInventory_combat (s : GameState) (itemId : String) :
    (removeItemFromInventory s itemId).combat = s.combat := by
  cases hc : s.character <;> simp [removeItemFromInventory, hc]

theorem gainExperience_combat (s : GameState) (amount : Int) :
    (gainExperience s amount).combat = s.combat := by
  cases hc : s.character with
  | none => simp [gainExperience, hc]
  | some ch =>
    by_cases hlev : ch.experience + amount ≥ ch.level * 100 <;>
      simp [gainExperience, addToGameLog, hc, hlev]

theorem useItemEffectStep_fold_combat (character : Character) (item : Item) :
    ∀ (effects : List ItemEffect) (acc : GameState),
      (effects.foldl (useItemEffectStep character item) acc).combat = acc.combat := by
  intro effects
  induction effects with
  | nil => intro acc; rfl
  | cons e es ih =>
    intro acc
    rw [List.foldl_cons, ih]
    by_cases hcond : e.type = EffectType.heal ∧ e.target = EffectTarget.self <;>
      simp [useItemEffectStep, addToGameLog, hcond]

theorem useItem_combat (s : GameState) (itemId : String) :
    (useItem s itemId).combat = s.combat := by
  cases hc : s.character with
  | none => simp [useItem, hc]
  | some ch =>
    cases hf : ch.inventory.find? (fun i => i.id == itemId) with
    | none => simp [useItem, hc, hf]
    | some item =>
      by_cases hu : item.usable = true
      · cases heff : item.effects with
        | none => simp [useItem, hc, hf, hu, heff, removeItemFromInventory_combat]
        | some effects =>
          simp [useItem, hc, hf, hu, heff, removeItemFromInventory_combat,
            useItemEffectStep_fold_combat]
      · simp [useItem, hc, hf, hu]

theorem endCombat_combat_none (s : GameState) (ch : Character) (cb : CombatState)
    (hch : s.character = some ch) (hcb : s.combat = some cb) :
    (endCombat s).combat = none := by
  simp [endCombat, hch, hcb]

theorem retaliationStep_combat (s : GameState) :
    (retaliationStep s).combat = s.combat ∨
    ∃ cb, s.combat = some cb ∧ (retaliationStep s).combat = some { cb with playerTurn := true } := by
  cases hc : s.character with
  | none => left; simp [retaliationStep, hc]
  | some ch =>
    cases hcb : s.combat with
    | none => left; simp [retaliationStep, hc, hcb]
    | some cb =>
      right
      refine ⟨cb, rfl, ?_⟩
      by_cases hdead : max 0 (ch.health - (cb.enemies.foldl
          (fun acc enemy => acc + max 1 (Int.fdiv (enemy.stats.strength * 6) 5)) (0 : Int))) ≤ 0 <;>
        simp [retaliationStep, addToGameLog, hc, hcb, hdead]

theorem moveToLocation_combat (s : GameState) (locationId : String) (encounterRoll : Bool) :
    (moveToLocation s locationId encounterRoll).combat = s.combat ∨
    ∃ es, 0 < es.length ∧ (moveToLocation s locationId encounterRoll).combat =
      some { inCombat := true, enemies := es, playerTurn := true, round := 1, combatLog := [] } := by
  cases hl : locations locationId with
  | none => left; simp [moveToLocation, hl]
  | some loc =>
    cases he : loc.enemies with
    | none => left; simp [moveToLocation, addToGameLog, hl, he]
    | some es =>
      by_cases hlen : 0 < es.length
      · cases encounterRoll with
        | false => left; simp [moveToLocation, addToGameLog, hl, he, hlen]
        | true =>
          right
          exact ⟨es, hlen, by simp [moveToLocation, addToGameLog, startCombat, hl, he, hlen]⟩
      · left; simp [moveToLocation, addToGameLog, hl, he, hlen]

theorem findIdx?_ne_nil {p : Enemy → Bool} {l : List Enemy} {i : Nat}
    (h : l.findIdx? p = some i) : l ≠ [] := by
  intro hnil
  subst hnil
  simp at h

theorem set_ne_nil {l : List Enemy} (h : l ≠ []) (i : Nat) (x : Enemy) : l.set i x ≠ [] := by
  cases l with
  | nil => exact absurd rfl h
  | cons a as => cases i <;> simp

/-- `attackEnemy` either leaves the state unchanged, clears combat, or
leaves a combat whose `inCombat` flag is inherited and whose roster is
non-empty. -/
theorem attackEnemy_combat_cases (s : GameState) (enemyId : String) (roll : Nat) :
    attackEnemy s enemyId roll = s ∨
    (attackEnemy s enemyId roll).combat = none ∨
    (∃ cb cb', s.combat = some cb ∧ (attackEnemy s enemyId roll).combat = some cb' ∧
      cb'.inCombat = cb.inCombat ∧ cb'.enemies ≠ []) := by
  cases hc : s.character with
  | none => left; simp [attackEnemy, hc]
  | some ch =>
    cases hcb : s.combat with
    | none => left; simp [attackEnemy, hc, hcb]
    | some cb =>
      cases hidx : cb.enemies.findIdx? (fun e => e.id == enemyId) with
      | none => left; simp [attackEnemy, hc, hcb, hidx]
      | some idx =>
        cases hget : cb.enemies[idx]? with
        | none => left; simp [attackEnemy, hc, hcb, hidx, hget]
        | some enemy =>
          have hne : cb.enemies ≠ [] := findIdx?_ne_nil hidx
          by_cases hl : enemy.health ≤ calculateDamage ch.stats.strength ch.stats.dexterity false roll
          · have h0 : max 0 (enemy.health - calculateDamage ch.stats.strength ch.stats.dexterity false roll) = 0 :=
              max_eq_left (sub_nonpos.mpr hl)
            by_cases hrem : (cb.enemies.set idx { enemy with health := 0 }).filter
                (fun e => decide (0 < e.health)) = []
            · right; left
              simp [attackEnemy, endCombat, addToGameLog, hc, hcb, hidx, hget, hl, h0, hrem]
            · right; right
              obtain ⟨e0, es, hrem2⟩ := List.exists_cons_of_ne_nil hrem
              refine ⟨cb, { cb with
                enemies := (cb.enemies.set idx { enemy with health := 0 }).filter
                  (fun e => decide (0 < e.health)),
                playerTurn := true }, rfl, ?_, rfl, hrem⟩
              simp [attackEnemy, addToGameLog, hc, hcb, hidx, hget, hl, h0, hrem2]
          · right; right
            refine ⟨cb, { cb with
                enemies := cb.enemies.set idx { enemy with
                  health := max 0 (enemy.health - calculateDamage ch.stats.strength ch.stats.dexterity false roll) }
                playerTurn := false
                round := cb.round + 1 }, rfl, ?_, rfl, set_ne_nil hne _ _⟩
            simp [attackEnemy, addToGameLog, hc, hcb, hidx, hget, hl]

/-- C3 (counterexample): `startCombat` with the empty enemy list — one of
the public operations the claim quantifies over — yields a reachable state
whose combat object has `inCombat = true` and an empty roster. -/
theorem startCombat_empty_roster_reachable :
    Reach (fun _ => True) (fun _ => True) emptyRosterState ∧
    (emptyRosterState.combat.map (fun cb => (cb.inCombat, cb.enemies))) =
      some (true, ([] : List Enemy)) :=
  ⟨Reach.startC initialState [] Reach.init trivial, rfl⟩

/-- C3 (amended): in every state reachable through the public operations
with `startCombat` restricted to non-empty enemy lists (as every in-game
call site does, `moveToLocation` only starting combat at a location whose
resident enemy list is non-empty), a combat object with `inCombat = true`
has a non-empty enemy roster. -/
theorem combat_roster_nonempty_invariant (s : GameState)
    (hreach : Reach (fun _ => True) (fun es => es ≠ []) s) :
    ∀ cb, s.combat = some cb → cb.inCombat = true → cb.enemies ≠ [] := by
  induction hreach with
  | init =>
    intro cb hcb
    simp [initialState] at hcb
  | createChar s n d c r h ih =>
    intro cb hcb hin
    rw [createNewCharacter_combat] at hcb
    exact ih cb hcb hin
  | gainExp s a h ih =>
    intro cb hcb hin
    rw [gainExperience_combat] at hcb
    exact ih cb hcb hin
  | addItem s item h hitem ih =>
    intro cb hcb hin
    rw [addItemToInventory_combat] at hcb
    exact ih cb hcb hin
  | removeItem s i h ih =>
    intro cb hcb hin
    rw [removeItemFromInventory_combat] at hcb
    exact ih cb hcb hin
  | useIt s i h ih =>
    intro cb hcb hin
    rw [useItem_combat] at hcb
    exact ih cb hcb hin
  | move s lid roll h ih =>
    intro cb hcb hin
    rcases moveToLocation_combat s lid roll with hmv | ⟨es, hlen, hmv⟩
    · rw [hmv] at hcb
      exact ih cb hcb hin
    · rw [hmv] at hcb
      have hcb2 := Option.some.inj hcb
      subst hcb2
      simpa using List.length_pos.mp hlen
  | startC s es h hes ih =>
    intro cb hcb hin
    have : (startCombat s es).combat =
        some { inCombat := true, enemies := es, playerTurn := true, round := 1, combatLog := [] } := by
      simp [startCombat, addToGameLog]
    rw [this] at hcb
    have hcb2 := Option.some.inj hcb
    subst hcb2
    simpa using hes
  | attack s eid roll h hroll ih =>
    intro cb hcb hin
    rcases attackEnemy_combat_cases s eid roll with heq | hnone | ⟨cb0, cb', hcb0, hcb', hin', hne⟩
    · rw [heq] at hcb
      exact ih cb hcb hin
    · rw [hnone] at hcb
      simp at hcb
    · rw [hcb'] at hcb
      have hcb2 := Option.some.inj hcb
      subst hcb2
      exact hne
  | endC s h ih =>
    intro cb hcb hin
    cases hc : s.character with
    | none =>
      rw [show endCombat s = s from by simp [endCombat, hc]] at hcb
      exact ih cb hcb hin
    | some ch =>
      cases hcb2 : s.combat with
      | none =>
        rw [show endCombat s = s from by simp [endCombat, hc, hcb2]] at hcb
        exact ih cb hcb hin
      | some cb2 =>
        rw [endCombat_combat_none s ch cb2 hc hcb2] at hcb
        simp at hcb
  | retaliate s h ih =>
    intro cb hcb hin
    rcases retaliationStep_combat s with heq | ⟨cb0, hcb0, heq⟩
    · rw [heq] at hcb
      exact ih cb hcb hin
    · rw [heq] at hcb
      have hcb2 := Option.some.inj hcb
      subst hcb2
      exact ih cb0 hcb0 (by simpa using hin)

/-- Witness for the amended C3: combat started against the lone forest
wolf. -/
theorem combat_roster_nonempty_invariant_witness :
    ({ inCombat := true, enemies := [wolf1], playerTurn := true, round := 1, combatLog := [] } : CombatState).enemies ≠ [] :=
  combat_roster_nonempty_invariant (startCombat initialState [wolf1])
    (Reach.startC initialState [wolf1] Reach.init (by simp))
    { inCombat := true, enemies := [wolf1], playerTurn := true, round := 1, combatLog := [] }
    rfl rfl

/-! ## Health/mana invariant helpers -/

theorem itemOKb_spec (item : Item) (h : itemOKb item = true) :
    ∀ effects, item.effects = some effects →
      ∀ e ∈ effects, e.type = EffectType.heal → e.target = EffectTarget.self → 0 ≤ e.amount := by
  intro effects heff e hmem htype htarget
  rw [itemOKb, heff] at h
  rw [List.all_eq_true] at h
  have := h e hmem
  simp [htype, htarget] at this
  exact this

theorem healFold_bounds (character : Character) (effects : List ItemEffect)
    (hok : ∀ e ∈ effects, e.type = EffectType.heal → e.target = EffectTarget.self → 0 ≤ e.amount)
    (h1 : 0 ≤ character.health) (h2 : character.health ≤ character.maxHealth) :
    ∀ h0, 0 ≤ h0 → h0 ≤ character.maxHealth →
      0 ≤ healFold character effects h0 ∧ healFold character effects h0 ≤ character.maxHealth := by
  induction effects with
  | nil =>
    intro h0 ha hb
    exact ⟨ha, hb⟩
  | cons e es ih =>
    intro h0 ha hb
    have hok' : ∀ x ∈ es, x.type = EffectType.heal → x.target = EffectTarget.self → 0 ≤ x.amount :=
      fun x hx => hok x (List.mem_cons_of_mem e hx)
    by_cases hcond : e.type = EffectType.heal ∧ e.target = EffectTarget.self
    · have hamt : 0 ≤ e.amount := hok e (List.mem_cons_self e es) hcond.1 hcond.2
      have hstep : healFold character (e :: es) h0 =
          healFold character es (min (character.health + e.amount) character.maxHealth) := by
        simp [healFold, hcond]
      rw [hstep]
      exact ih hok' _ (le_min (by linarith) (by linarith)) (min_le_right _ _)
    · have hstep : healFold character (e :: es) h0 = healFold character es h0 := by
        simp [healFold, hcond]
      rw [hstep]
      exact ih hok' h0 ha hb

theorem healOutcome_bounds (character : Character) (item : Item)
    (hok : itemOKb item = true)
    (h1 : 0 ≤ character.health) (h2 : character.health ≤ character.maxHealth) :
    0 ≤ healOutcome character item ∧ healOutcome character item ≤ character.maxHealth := by
  cases heff : item.effects with
  | none => simp [healOutcome, heff]; exact ⟨h1, h2⟩
  | some effects =>
    rw [healOutcome, heff]
    exact healFold_bounds character effects (itemOKb_spec item hok effects heff) h1 h2
      character.health h1 h2

theorem retaliation_damage_nonneg :
    ∀ (l : List Enemy) (a : Int), a ≤ l.foldl
      (fun acc enemy => acc + max 1 (Int.fdiv (enemy.stats.strength * 6) 5)) a := by
  intro l
  induction l with
  | nil => intro a; exact le_refl a
  | cons e es ih =>
    intro a
    rw [List.foldl_cons]
    calc a ≤ a + max 1 (Int.fdiv (e.stats.strength * 6) 5) := by
            have : (1 : Int) ≤ max 1 (Int.fdiv (e.stats.strength * 6) 5) := le_max_left _ _
            linarith
      _ ≤ _ := ih _

theorem startCombat_character (s : GameState) (es : List Enemy) :
    (startCombat s es).character = s.character := rfl

theorem moveToLocation_character (s : GameState) (locationId : String) (encounterRoll : Bool) :
    (moveToLocation s locationId encounterRoll).character = s.character := by
  cases hl : locations locationId with
  | none => simp [moveToLocation, hl]
  | some loc =>
    cases he : loc.enemies with
    | none => simp [moveToLocation, addToGameLog, hl, he]
    | some es =>
      by_cases hlen : 0 < es.length <;> cases encounterRoll <;>
        simp [moveToLocation, addToGameLog, startCombat, hl, he, hlen]

theorem endCombat_character (s : GameState) (ch : Character) (cb : CombatState)
    (hch : s.character = some ch) (hcb : s.combat = some cb) :
    ∃ g, (endCombat s).character = some { ch with gold := g } := by
  refine ⟨?_, ?_⟩
  · exact ch.gold + (cb.enemies.foldl
      (fun (acc : Int × Int × GameState) enemy =>
        (acc.1 + enemy.experience, acc.2.1 + enemy.gold,
          enemy.drops.foldl (fun st item => addItemToInventory st item) acc.2.2))
      (0, 0, s)).2.1
  · simp [endCombat, addToGameLog, hch, hcb]

theorem attackEnemy_character_cases (s : GameState) (enemyId : String) (roll : Nat) :
    (attackEnemy s enemyId roll).character = s.character ∨
    (∃ ch g, s.character = some ch ∧
      (attackEnemy s enemyId roll).character = some { ch with gold := g }) := by
  cases hc : s.character with
  | none => left; simp [attackEnemy, hc]
  | some ch =>
    cases hcb : s.combat with
    | none => left; simp [attackEnemy, hc, hcb]
    | some cb =>
      cases hidx : cb.enemies.findIdx? (fun e => e.id == enemyId) with
      | none => left; simp [attackEnemy, hc, hcb, hidx]
      | some idx =>
        cases hget : cb.enemies[idx]? with
        | none => left; simp [attackEnemy, hc, hcb, hidx, hget]
        | some enemy =>
          by_cases hl : enemy.health ≤ calculateDamage ch.stats.strength ch.stats.dexterity false roll
          · have h0 : max 0 (enemy.health - calculateDamage ch.stats.strength ch.stats.dexterity false roll) = 0 :=
              max_eq_left (sub_nonpos.mpr hl)
            by_cases hrem : (cb.enemies.set idx { enemy with health := 0 }).filter
                (fun e => decide (0 < e.health)) = []
            · right
              have hs3 : (attackEnemy s enemyId roll) = endCombat
                  { s with
                    gameLog := s.gameLog ++
                      [{ text := "You hit " ++ enemy.name ++ " for " ++
                          toString (calculateDamage ch.stats.strength ch.stats.dexterity false roll) ++
                          " damage.", type := LogType.combat },
                       { text := "You defeated " ++ enemy.name ++ "!", type := LogType.combat }]
                    combat := some { cb with
                      enemies := cb.enemies.set idx { enemy with health := 0 }
                      playerTurn := false
                      round := cb.round } } := by
                simp [attackEnemy, addToGameLog, hc, hcb, hidx, hget, hl, h0, hrem]
              rw [hs3]
              obtain ⟨g, hg⟩ := endCombat_character
                { s with
                  gameLog := s.gameLog ++
                    [{ text := "You hit " ++ enemy.name ++ " for " ++
                        toString (calculateDamage ch.stats.strength ch.stats.dexterity false roll) ++
                        " damage.", type := LogType.combat },
                     { text := "You defeated " ++ enemy.name ++ "!", type := LogType.combat }]
                  combat := some { cb with
                    enemies := cb.enemies.set idx { enemy with health := 0 }
                    playerTurn := false
                    round := cb.round } }
                ch
                { cb with
                  enemies := cb.enemies.set idx { enemy with health := 0 }
                  playerTurn := false
                  round := cb.round }
                hc rfl
              exact ⟨ch, g, rfl, hg⟩
            · left
              obtain ⟨e0, es, hrem2⟩ := List.exists_cons_of_ne_nil hrem
              simp [attackEnemy, addToGameLog, hc, hcb, hidx, hget, hl, h0, hrem2]
          · left
            simp [attackEnemy, addToGameLog, hc, hcb, hidx, hget, hl]

theorem createNewCharacter_stateOK (s : GameState) (n d : String) (c : CharacterClass)
    (r : CharacterRelic) : stateOK (createNewCharacter s n d c r) := by
  intro ch hch
  simp [createNewCharacter] at hch
  subst hch
  cases c <;> simp [chOK, getBaseStats, itemOKb]

theorem addItemToInventory_stateOK (s : GameState) (item : Item)
    (hitem : itemOKb item = true) (h : stateOK s) : stateOK (addItemToInventory s item) := by
  intro ch2 hch2
  cases hc : s.character with
  | none =>
    rw [show addItemToInventory s item = s from by simp [addItemToInventory, hc]] at hch2
    exact h ch2 hch2
  | some ch =>
    have hres : (addItemToInventory s item).character =
        some { ch with inventory := ch.inventory ++ [item] } := by
      simp [addItemToInventory, hc]
    rw [hres] at hch2
    have hch2' := Option.some.inj hch2
    subst hch2'
    obtain ⟨a1, a2, a3, a4, a5, a6, a7⟩ := h ch hc
    refine ⟨a1, a2, a3, a4, ?_, a6, a7⟩
    intro it hit
    rcases List.mem_append.mp hit with hmem | hmem
    · exact a5 it hmem
    · have : it = item := by simpa using hmem
      subst this
      exact hitem

theorem removeItemFromInventory_stateOK (s : GameState) (itemId : String)
    (h : stateOK s) : stateOK (removeItemFromInventory s itemId) := by
  intro ch2 hch2
  cases hc : s.character with
  | none =>
    rw [show removeItemFromInventory s itemId = s from by
      simp [removeItemFromInventory, hc]] at hch2
    exact h ch2 hch2
  | some ch =>
    have hres : (removeItemFromInventory s itemId).character =
        some { ch with inventory := ch.inventory.filter (fun item => item.id != itemId) } := by
      simp [removeItemFromInventory, hc]
    rw [hres] at hch2
    have hch2' := Option.some.inj hch2
    subst hch2'
    obtain ⟨a1, a2, a3, a4, a5, a6, a7⟩ := h ch hc
    exact ⟨a1, a2, a3, a4, fun it hit => a5 it (List.mem_of_mem_filter hit), a6, a7⟩

theorem gainExperience_character (s : GameState) (amount : Int) (ch : Character)
    (hc : s.character = some ch) :
    (gainExperience s amount).character = some { ch with experience := ch.experience + amount } ∨
    ∃ ns : Stats, ch.stats.constitution ≤ ns.constitution ∧
      ch.stats.intelligence ≤ ns.intelligence ∧
      (gainExperience s amount).character = some { ch with
        level := ch.level + 1
        experience := ch.experience + amount - ch.level * 100
        maxHealth := 20 + ns.constitution * 5
        health := 20 + ns.constitution * 5
        maxMana := ns.intelligence * 10
        mana := ns.intelligence * 10
        stats := ns } := by
  by_cases hlev : ch.experience + amount ≥ ch.level * 100
  · right
    cases hclass : ch.charClass
    · refine ⟨{ ch.stats with strength := ch.stats.strength + 2, constitution := ch.stats.constitution + 1 }, by simp, le_refl _, ?_⟩
      simp [gainExperience, addToGameLog, hc, hclass, hlev]
    · refine ⟨{ ch.stats with intelligence := ch.stats.intelligence + 2, wisdom := ch.stats.wisdom + 1 }, le_refl _, by simp, ?_⟩
      simp [gainExperience, addToGameLog, hc, hclass, hlev]
    · refine ⟨{ ch.stats with dexterity := ch.stats.dexterity + 2, charisma := ch.stats.charisma + 1 }, le_refl _, le_refl _, ?_⟩
      simp [gainExperience, addToGameLog, hc, hclass, hlev]
    · refine ⟨{ ch.stats with wisdom := ch.stats.wisdom + 2, constitution := ch.stats.constitution + 1 }, by simp, le_refl _, ?_⟩
      simp [gainExperience, addToGameLog, hc, hclass, hlev]
  · left
    simp [gainExperience, addToGameLog, hc, hlev]

theorem gainExperience_stateOK (s : GameState) (amount : Int)
    (h : stateOK s) : stateOK (gainExperience s amount) := by
  intro ch2 hch2
  cases hc : s.character with
  | none =>
    rw [show gainExperience s amount = s from by simp [gainExperience, hc]] at hch2
    exact h ch2 hch2
  | some ch =>
    obtain ⟨a1, a2, a3, a4, a5, a6, a7⟩ := h ch hc
    rcases gainExperience_character s amount ch hc with hres | ⟨ns, hcon, hint, hres⟩
    · rw [hres] at hch2
      have hch2' := Option.some.inj hch2
      subst hch2'
      exact ⟨a1, a2, a3, a4, a5, a6, a7⟩
    · rw [hres] at hch2
      have hch2' := Option.some.inj hch2
      subst hch2'
      have hcon0 : 0 ≤ ns.constitution := le_trans a6 hcon
      have hint0 : 0 ≤ ns.intelligence := le_trans a7 hint
      refine ⟨by simp; linarith, by simp, by simp; linarith, by simp, ?_, ?_, ?_⟩
      · intro it hit
        exact a5 it hit
      · simpa using hcon0
      · simpa using hint0

theorem useItem_stateOK (s : GameState) (itemId : String)
    (h : stateOK s) : stateOK (useItem s itemId) := by
  intro ch2 hch2
  cases hc : s.character with
  | none =>
    rw [show useItem s itemId = s from by simp [useItem, hc]] at hch2
    exact h ch2 hch2
  | some ch =>
    cases hf : ch.inventory.find? (fun i => i.id == itemId) with
    | none =>
      rw [show useItem s itemId = s from by simp [useItem, hc, hf]] at hch2
      exact h ch2 hch2
    | some item =>
      by_cases hu : item.usable = true
      · rw [(useItem_success_spec s ch itemId item hc hf hu).1] at hch2
        have hch2' := Option.some.inj hch2
        subst hch2'
        obtain ⟨a1, a2, a3, a4, a5, a6, a7⟩ := h ch hc
        have hitem : itemOKb item = true := a5 item (List.mem_of_find?_eq_some hf)
        obtain ⟨b1, b2⟩ := healOutcome_bounds ch item hitem a1 a2
        exact ⟨b1, b2, a3, a4,
          fun it hit => a5 it (List.mem_of_mem_filter hit), a6, a7⟩
      · have hu2 : item.usable = false := by
          revert hu
          cases item.usable <;> simp
        rw [show useItem s itemId = s from by simp [useItem, hc, hf, hu2]] at hch2
        exact h ch2 hch2

theorem startCombat_stateOK (s : GameState) (es : List Enemy)
    (h : stateOK s) : stateOK (startCombat s es) := by
  intro ch2 hch2
  rw [startCombat_character] at hch2
  exact h ch2 hch2

theorem moveToLocation_stateOK (s : GameState) (locationId : String) (encounterRoll : Bool)
    (h : stateOK s) : stateOK (moveToLocation s locationId encounterRoll) := by
  intro ch2 hch2
  rw [moveToLocation_character] at hch2
  exact h ch2 hch2

theorem endCombat_stateOK (s : GameState) (h : stateOK s) : stateOK (endCombat s) := by
  intro ch2 hch2
  cases hc : s.character with
  | none =>
    rw [show endCombat s = s from by simp [endCombat, hc]] at hch2
    exact h ch2 hch2
  | some ch =>
    cases hcb : s.combat with
    | none =>
      rw [show endCombat s = s from by simp [endCombat, hc, hcb]] at hch2
      exact h ch2 hch2
    | some cb =>
      obtain ⟨g, hg⟩ := endCombat_character s ch cb hc hcb
      rw [hg] at hch2
      have hch2' := Option.some.inj hch2
      subst hch2'
      obtain ⟨a1, a2, a3, a4, a5, a6, a7⟩ := h ch hc
      exact ⟨a1, a2, a3, a4, a5, a6, a7⟩

theorem retaliationStep_character (s : GameState) :
    (retaliationStep s).character = s.character ∨
    ∃ ch totalDamage, s.character = some ch ∧ (0 : Int) ≤ totalDamage ∧
      (retaliationStep s).character = some { ch with health := max 0 (ch.health - totalDamage) } := by
  cases hc : s.character with
  | none => left; simp [retaliationStep, hc]
  | some ch =>
    cases hcb : s.combat with
    | none => left; simp [retaliationStep, hc, hcb]
    | some cb =>
      right
      refine ⟨ch, cb.enemies.foldl
        (fun acc enemy => acc + max 1 (Int.fdiv (enemy.stats.strength * 6) 5)) (0 : Int),
        rfl, retaliation_damage_nonneg cb.enemies 0, ?_⟩
      by_cases hdead : max 0 (ch.health - cb.enemies.foldl
          (fun acc enemy => acc + max 1 (Int.fdiv (enemy.stats.strength * 6) 5)) (0 : Int)) ≤ 0 <;>
        simp [retaliationStep, addToGameLog, hc, hcb, hdead]

theorem retaliationStep_stateOK (s : GameState) (h : stateOK s) :
    stateOK (retaliationStep s) := by
  intro ch2 hch2
  rcases retaliationStep_character s with heq | ⟨ch, totalDamage, hc, hD, heq⟩
  · rw [heq] at hch2
    exact h ch2 hch2
  · rw [heq] at hch2
    have hch2' := Option.some.inj hch2
    subst hch2'
    obtain ⟨a1, a2, a3, a4, a5, a6, a7⟩ := h ch hc
    refine ⟨by simp, ?_, a3, a4, a5, a6, a7⟩
    simp only
    rw [max_le_iff]
    constructor
    · linarith
    · linarith

theorem attackEnemy_stateOK (s : GameState) (enemyId : String) (roll : Nat)
    (h : stateOK s) : stateOK (attackEnemy s enemyId roll) := by
  intro ch2 hch2
  rcases attackEnemy_character_cases s enemyId roll with heq | ⟨ch, g, hc, heq⟩
  · rw [heq] at hch2
    exact h ch2 hch2
  · rw [heq] at hch2
    have hch2' := Option.some.inj hch2
    subst hch2'
    obtain ⟨a1, a2, a3, a4, a5, a6, a7⟩ := h ch hc
    exact ⟨a1, a2, a3, a4, a5, a6, a7⟩

/-- Every state reachable while only benign items (non-negative heal
amounts) are handed to `addItemToInventory` satisfies the character
invariant. -/
theorem reach_stateOK (s : GameState)
    (h : Reach (fun it => itemOKb it = true) (fun _ => True) s) : stateOK s := by
  induction h with
  | init => intro ch hch; simp [initialState] at hch
  | createChar s n d c r h ih => exact createNewCharacter_stateOK s n d c r
  | gainExp s a h ih => exact gainExperience_stateOK s a ih
  | addItem s item h hitem ih => exact addItemToInventory_stateOK s item hitem ih
  | removeItem s i h ih => exact removeItemFromInventory_stateOK s i ih
  | useIt s i h ih => exact useItem_stateOK s i ih
  | move s lid roll h ih => exact moveToLocation_stateOK s lid roll ih
  | startC s es h hes ih => exact startCombat_stateOK s es ih
  | attack s eid roll h hroll ih => exact attackEnemy_stateOK s eid roll ih
  | endC s h ih => exact endCombat_stateOK s ih
  | retaliate s h ih => exact retaliationStep_stateOK s ih

/-- C8 (counterexample): the operation sequence createCharacter(Warrior) →
addItemToInventory(cursed vial: usable, one heal-self effect of amount
-1000) → useItem("cursed-vial") is reachable through the engine operations,
yet leaves the character at health -945, violating `0 ≤ health`; `useItem`
clamps heals only from above (`Math.min(health + amount, maxHealth)`), never
at zero. -/
theorem negative_heal_breaks_health_invariant :
    Reach (fun _ => True) (fun _ => True) cursedState ∧
    (cursedState.character.map (fun c => c.health)) = some (-945) ∧ (-945 : Int) < 0 :=
  ⟨Reach.useIt _ "cursed-vial"
      (Reach.addItem _ cursedVial
        (Reach.createChar initialState "Aldric" "a wandering knight"
          CharacterClass.Warrior CharacterRelic.bladeOfEmber Reach.init) trivial),
    rfl, by decide⟩

/-- C8 (amended): for every sequence of engine operations starting from the
initial state in which every item handed to `addItemToInventory` has
non-negative heal-self amounts (drops routed through `endCombat` need no
such restriction: the stale gold write reverts them before they can be
used), the invariants `0 ≤ health ≤ maxHealth` and `0 ≤ mana ≤ maxMana`
hold after every operation. -/
theorem health_mana_invariant (s : GameState)
    (hreach : Reach (fun it => itemOKb it = true) (fun _ => True) s)
    (ch : Character) (hch : s.character = some ch) :
    0 ≤ ch.health ∧ ch.health ≤ ch.maxHealth ∧ 0 ≤ ch.mana ∧ ch.mana ≤ ch.maxMana := by
  obtain ⟨a1, a2, a3, a4, _, _, _⟩ := reach_stateOK s hreach ch hch
  exact ⟨a1, a2, a3, a4⟩

/-- Witness for the amended C8: create a Warrior, hand him a benign potion,
drink it — the resources remain within bounds. -/
theorem health_mana_invariant_witness :
    0 ≤ freshWarrior.health ∧ freshWarrior.health ≤ freshWarrior.maxHealth ∧
    0 ≤ freshWarrior.mana ∧ freshWarrior.mana ≤ freshWarrior.maxMana :=
  health_mana_invariant (useItem (addItemToInventory freshWarriorState minorPotion) "minor-potion")
    (Reach.useIt _ "minor-potion"
      (Reach.addItem _ minorPotion
        (Reach.createChar initialState "Aldric" "a wandering knight"
          CharacterClass.Warrior CharacterRelic.bladeOfEmber Reach.init) (by decide)))
    freshWarrior (by decide)
